import Mathlib

/-!
Verification of the XRP dashboard updater (`xrp_dashboard_updater.py`).

The script's update-merge cycle is embedded shallowly:

* JSON documents become the inductive `Json` (Python's `json` module parses
  numbers to `int` or `float`, so `Json` has both an integer and a rational
  number constructor).
* The filesystem at the dashboard path becomes `FileState` (missing file /
  file whose content is not valid JSON / file holding a parsed document).
* Python dictionary subscripting becomes `Json.getKey` (which can raise
  `KeyError` / `TypeError`, modelled with `Except PyExc`), and assignment
  through a chain of subscripts such as `d[a][b][c] = v` becomes
  `Json.setPath` (get-items on the leading keys, set-item on the last one).
* The network becomes `HttpResult`: the one `requests.get` call either raises
  (connection error / timeout), or produces a response with a status code and
  a body that may or may not be valid JSON.
* The observable behaviour of one cycle (console lines, the outbound HTTP
  request, file writes, sleeps) is recorded as a trace of `Event`s; console
  lines are recorded by a stable tag since their formatted text is
  observability only.
-/

set_option autoImplicit false

namespace XrpDashboard

/-- Python exceptions that the embedded code can raise. -/
inductive PyExc where
  | keyError (k : String)
  | typeError
  | jsonDecodeError
  | requestError
  | httpError (status : Nat)
  | valueError
  deriving DecidableEq, Repr

/-- JSON values as Python's `json.load` produces them: numbers are parsed to
`int` or `float`, objects keep insertion order (Python dicts are ordered). -/
inductive Json where
  | null
  | bool (b : Bool)
  | int (n : Int)
  | float (q : Rat)
  | str (s : String)
  | arr (elems : List Json)
  | obj (entries : List (String × Json))
  deriving Repr

/-- Look a key up in an ordered association list (Python dict lookup). -/
def dictGet : List (String × Json) → String → Option Json
  | [], _ => none
  | (k', v') :: rest, k => if k' = k then some v' else dictGet rest k

/-- `d[k] = v` on an ordered association list: overwrite in place if the key
exists, otherwise append at the end (Python dicts preserve insertion order). -/
def dictSet : List (String × Json) → String → Json → List (String × Json)
  | [], k, v => [(k, v)]
  | (k', v') :: rest, k, v =>
      if k' = k then (k, v) :: rest else (k', v') :: dictSet rest k v

/-- Python `d[k]` (read): `KeyError` on a missing key of a dict, `TypeError`
when subscripting a non-container with a string key. -/
def Json.getKey : Json → String → Except PyExc Json
  | .obj kvs, k =>
      match dictGet kvs k with
      | some v => .ok v
      | none => .error (.keyError k)
  | _, _ => .error .typeError

/-- Python `d[k] = v` (write) on a dict; `TypeError` otherwise. -/
def Json.setKey : Json → String → Json → Except PyExc Json
  | .obj kvs, k, v => .ok (.obj (dictSet kvs k v))
  | _, _, _ => .error .typeError

/-- `d[k1][k2]...[kn] = v`: get-item on every key but the last (each may raise
`KeyError`), set-item on the last. The empty path is not produced by the
embedding. -/
def Json.setPath : Json → List String → Json → Except PyExc Json
  | j, [], _ => .ok j
  | j, [k], v => j.setKey k v
  | j, k :: k2 :: rest, v => do
      let child ← j.getKey k
      let child' ← child.setPath (k2 :: rest) v
      j.setKey k child'

/-- Read access along a key path (used only to state properties). -/
def Json.getPath : Json → List String → Except PyExc Json
  | j, [] => .ok j
  | j, k :: rest => do
      let c ← j.getKey k
      c.getPath rest

/-- Python truthiness of a JSON value (`if exchange_data:`). -/
def Json.truthy : Json → Bool
  | .null => false
  | .bool b => b
  | .int n => n ≠ 0
  | .float q => q ≠ 0
  | .str s => s ≠ ""
  | .arr elems => !elems.isEmpty
  | .obj entries => !entries.isEmpty

/-- Python `str(...)` on the values this script stringifies (only the two
integer constants of `fetch_exchange_supply` ever reach a `str(...)` call). -/
def pyStr : Json → String
  | .int n => toString n
  | .str s => s
  | _ => ""

/-- What the one `requests.get` call in `fetch_xrp_price_data` can produce:
an exception before any response exists (connection error, timeout), or a
response with an HTTP status code and a body that is valid JSON or not. -/
inductive HttpResult where
  | netError
  | response (status : Nat) (body : Option Json)

/-- The four-field record built by a successful `fetch_xrp_price_data`.
The script stores the looked-up JSON values unchecked, so the fields are
`Json`, not numbers. -/
structure PriceData where
  price : Json
  price_change_24h : Json
  market_cap : Json
  volume_24h : Json
  deriving Repr

/-- The body of `fetch_xrp_price_data`'s `try:` block:
`requests.get` (propagates network errors), `response.raise_for_status()`
(raises for 4xx/5xx), `response.json()` (raises when the body is not JSON),
then the five key lookups that build the returned dict. -/
def fetchTry (r : HttpResult) : Except PyExc PriceData := do
  let data ←
    match r with
    | .netError => Except.error .requestError
    | .response status body =>
        if 400 ≤ status ∧ status < 600 then Except.error (.httpError status)
        else
          match body with
          | none => Except.error .jsonDecodeError
          | some j => Except.ok j
  let price ← (← data.getKey "ripple").getKey "usd"
  let change ← (← data.getKey "ripple").getKey "usd_24h_change"
  let cap ← (← data.getKey "ripple").getKey "usd_market_cap"
  let vol ← (← data.getKey "ripple").getKey "usd_24h_vol"
  return { price := price, price_change_24h := change,
           market_cap := cap, volume_24h := vol }

/-- `fetch_xrp_price_data`: the `except Exception` handler turns every
failure of the `try:` body into `None` (after printing an error line). -/
def fetch_xrp_price_data (r : HttpResult) : Option PriceData :=
  match fetchTry r with
  | .ok pd => some pd
  | .error _ => none

/-- `fetch_exchange_supply`: no I/O, returns a hard-coded dict. -/
def fetch_exchange_supply : Json :=
  .obj [("binance_reserves", .int 3600000000),
        ("total_exchange_supply", .int 8500000000),
        ("note", .str "Manual update required for accurate exchange data")]

/-- The state of the filesystem at the dashboard path. -/
inductive FileState where
  | missing
  | invalid
  | valid (doc : Json)

/-- Observable actions of a run. Console lines are identified by a stable
tag; `httpGet` is the outbound request issued inside `fetch_xrp_price_data`;
`wrote` is the `json.dump` rewriting the dashboard file; `sleep` is
`time.sleep` with its argument in seconds. -/
inductive Event where
  | printed (tag : String)
  | httpGet
  | wrote (doc : Json)
  | sleep (seconds : Nat)

/-- Result of one `update_dashboard_json` call: the events it emitted, the
file state it leaves on disk, and either the returned bool or an uncaught
exception. -/
structure CycleResult where
  events : List Event
  file : FileState
  result : Except PyExc Bool

/-- Lines 67-75: the five mutations performed when `price_data` is truthy
(four `current_market_metrics` fields, then `metadata.last_updated`). -/
def applyPriceUpdate (dashboard : Json) (pd : PriceData) (now : String) :
    Except PyExc Json := do
  let d1 ← dashboard.setPath ["current_market_metrics", "price_usd"] pd.price
  let d2 ← d1.setPath ["current_market_metrics", "price_change_24h_pct"] pd.price_change_24h
  let d3 ← d2.setPath ["current_market_metrics", "market_cap_usd"] pd.market_cap
  let d4 ← d3.setPath ["current_market_metrics", "volume_24h_usd"] pd.volume_24h
  d4.setPath ["metadata", "last_updated"] (.str now)

/-- Lines 88-89: the two exchange-supply mutations, stringifying the two
integers of `fetch_exchange_supply`. -/
def applyExchangeUpdate (dashboard : Json) : Except PyExc Json := do
  let br ← fetch_exchange_supply.getKey "binance_reserves"
  let d1 ← dashboard.setPath
    ["trigger_dashboard", "exchange_supply_depletion", "key_metrics",
     "binance_reserves_xrp"] (.str (pyStr br))
  let ts ← fetch_exchange_supply.getKey "total_exchange_supply"
  d1.setPath
    ["trigger_dashboard", "exchange_supply_depletion", "key_metrics",
     "total_exchange_supply_xrp"] (.str (pyStr ts))

/-- Lines 84-100: exchange-supply reconciliation and the final `json.dump`.
`origFile` is the untouched on-disk state, which survives when an exception
escapes before the write; `dashboard` is the in-memory document. -/
def finishUpdate (origFile : FileState) (dashboard : Json) (evs : List Event) :
    CycleResult :=
  let evs := evs ++ [.printed "updatingExchangeSupply"]
  if fetch_exchange_supply.truthy then
    match applyExchangeUpdate dashboard with
    | .error e => { events := evs, file := origFile, result := .error e }
    | .ok d =>
        { events := evs ++ [.printed "exchangeSupply", .wrote d,
                            .printed "updatedSuccessfully"],
          file := .valid d, result := .ok true }
  else
    { events := evs ++ [.wrote dashboard, .printed "updatedSuccessfully"],
      file := .valid dashboard, result := .ok true }

/-- `update_dashboard_json`: one cycle, parameterised by the current time
(already formatted ISO-8601 by `datetime.now().isoformat()`), the behaviour
of the network on this cycle, and the file at the dashboard path. Only
`FileNotFoundError` is caught at the load; a file whose content is not valid
JSON makes `json.load` raise `json.JSONDecodeError`, which propagates. -/
def update_dashboard_json (now : String) (http : HttpResult) (file : FileState) :
    CycleResult :=
  let hdr : List Event := [.printed "updateHeader"]
  match file with
  | .missing =>
      { events := hdr ++ [.printed "errorFileNotFound"],
        file := .missing, result := .ok false }
  | .invalid =>
      { events := hdr, file := .invalid, result := .error .jsonDecodeError }
  | .valid dashboard =>
      let evs := hdr ++ [.printed "fetchingLiveData", .httpGet]
      match fetch_xrp_price_data http with
      | none =>
          finishUpdate (.valid dashboard) dashboard
            (evs ++ [.printed "errorFetchingPriceData",
                     .printed "couldNotFetchKeepingExisting"])
      | some pd =>
          match applyPriceUpdate dashboard pd now with
          | .error e =>
              { events := evs, file := .valid dashboard, result := .error e }
          | .ok d5 =>
              finishUpdate (.valid dashboard) d5
                (evs ++ [.printed "priceUpdated", .printed "change24h",
                         .printed "marketCap", .printed "volume"])

/-- `continuous_update`'s `while True:` loop, unrolled against an interrupt
schedule: `k` is the number of sleeps that complete before `KeyboardInterrupt`
arrives during a sleep. `now i` and `http i` give iteration `i`'s clock
reading and network behaviour. The result is (events, final file state,
`.ok ()` for the clean `except KeyboardInterrupt:` exit or `.error e` for an
exception escaping the loop body). -/
def continuousLoop (now : Nat → String) (http : Nat → HttpResult) :
    Nat → Nat → Nat → FileState → (List Event × FileState × Except PyExc Unit)
  | _interval_minutes, i, 0, file =>
      let r := update_dashboard_json (now i) (http i) file
      match r.result with
      | .error e => (r.events, r.file, .error e)
      | .ok _ =>
          (r.events ++ [.printed "nextUpdateIn", .printed "stoppedByUser"],
           r.file, .ok ())
  | interval_minutes, i, Nat.succ k, file =>
      let r := update_dashboard_json (now i) (http i) file
      match r.result with
      | .error e => (r.events, r.file, .error e)
      | .ok _ =>
          let rest := continuousLoop now http interval_minutes (i + 1) k r.file
          (r.events ++ [.printed "nextUpdateIn",
                        .sleep (interval_minutes * 60)] ++ rest.1,
           rest.2.1, rest.2.2)

/-- `continuous_update(interval_minutes)`: banner lines, then the loop. -/
def continuous_update (interval_minutes : Nat) (now : Nat → String)
    (http : Nat → HttpResult) (k : Nat) (file : FileState) :
    (List Event × FileState × Except PyExc Unit) :=
  let r := continuousLoop now http interval_minutes 0 k file
  ([.printed "startingContinuousMode", .printed "pressCtrlCToStop"] ++ r.1,
   r.2.1, r.2.2)

/-- The mode the `__main__` block dispatches to. -/
inductive Mode where
  | single
  | continuousMode (interval_minutes : Nat)
  | help
  | nothing
  deriving DecidableEq, Repr

/-- Python `int(s)` as used on `sys.argv[2]` (raises `ValueError` when the
string is not an integer literal; the script only ever passes minutes, so
non-negative results are the ones that matter). -/
def pyInt (s : String) : Except PyExc Int :=
  match s.toInt? with
  | some n => .ok n
  | none => .error .valueError

/-- Lines 115-131: argument dispatch of the `__main__` block. `argv` includes
the program name at position 0. With an argument that is neither
`--continuous` nor `--help`, the `if`/`elif` chain has no `else`: the block
falls through and does nothing. -/
def mainMode (argv : List String) : Except PyExc Mode :=
  match argv with
  | _prog :: a1 :: rest =>
      if a1 = "--continuous" then
        match rest with
        | a2 :: _ => do
            let n ← pyInt a2
            return .continuousMode n.toNat
        | [] => .ok (.continuousMode 15)
      else if a1 = "--help" then .ok .help
      else .ok .nothing
  | _ => .ok .single

/-- The events each dispatched mode emits (single-shot and continuous are
parameterised like the functions they call; `help` prints usage lines and
performs no update; the fall-through branch does nothing at all). -/
def modeEvents (now : Nat → String) (http : Nat → HttpResult) (k : Nat)
    (file : FileState) : Mode → List Event
  | .single => (update_dashboard_json (now 0) (http 0) file).events
  | .continuousMode n => (continuous_update n now http k file).1
  | .help => [.printed "usageHeader", .printed "usageSingle",
              .printed "usageContinuous", .printed "usageHelp"]
  | .nothing => []

/-- The events of a trace that are file writes. -/
def isWriteEvent : Event → Bool
  | .wrote _ => true
  | _ => false

/-- Number of `json.dump` writes in a trace. -/
def writeCount (evs : List Event) : Nat := (evs.filter isWriteEvent).length

/-- Well-formed dashboard document: the containers the merge subscripts
through all exist and are JSON objects. This is the minimum shape §3 of the
design gives the Dashboard Document. -/
def WF (d : Json) : Prop :=
  ∃ (kvs cm md tdl esdl kml : List (String × Json)),
    d = .obj kvs ∧
    dictGet kvs "current_market_metrics" = some (.obj cm) ∧
    dictGet kvs "metadata" = some (.obj md) ∧
    dictGet kvs "trigger_dashboard" = some (.obj tdl) ∧
    dictGet tdl "exchange_supply_depletion" = some (.obj esdl) ∧
    dictGet esdl "key_metrics" = some (.obj kml)

/-- `current_market_metrics` after a successful fetch merged `pd` in. -/
def cmMerged (cm : List (String × Json)) (pd : PriceData) :
    List (String × Json) :=
  dictSet (dictSet (dictSet (dictSet cm
    "price_usd" pd.price)
    "price_change_24h_pct" pd.price_change_24h)
    "market_cap_usd" pd.market_cap)
    "volume_24h_usd" pd.volume_24h

/-- Top-level entries after the price/timestamp mutations (lines 69-75). -/
def priceMergedList (kvs cm md : List (String × Json)) (pd : PriceData)
    (now : String) : List (String × Json) :=
  dictSet (dictSet kvs "current_market_metrics" (.obj (cmMerged cm pd)))
    "metadata" (.obj (dictSet md "last_updated" (.str now)))

/-- `key_metrics` after the exchange-supply mutations (lines 88-89). -/
def kmMerged (kml : List (String × Json)) : List (String × Json) :=
  dictSet (dictSet kml "binance_reserves_xrp" (.str "3600000000"))
    "total_exchange_supply_xrp" (.str "8500000000")

/-- Top-level entries after the exchange-supply mutations. -/
def exchangeMergedList (kvs tdl esdl kml : List (String × Json)) :
    List (String × Json) :=
  dictSet kvs "trigger_dashboard"
    (.obj (dictSet tdl "exchange_supply_depletion"
      (.obj (dictSet esdl "key_metrics" (.obj (kmMerged kml))))))

/-- The events of a trace that are sleeps. -/
def isSleepEvent : Event → Bool
  | .sleep _ => true
  | _ => false

/-- Observation used to compare documents on disk: the string value at a key
path of the document a file state holds, if any. -/
def strAt (fs : FileState) (path : List String) : Option String :=
  match fs with
  | .valid d =>
      match d.getPath path with
      | .ok (.str s) => some s
      | _ => none
  | _ => none

/-- A concrete well-formed dashboard document used to instantiate theorems:
its exchange-supply strings differ from the stub constants and it carries an
inert `simulation_models` section. -/
def sampleKm : List (String × Json) :=
  [("binance_reserves_xrp", .str "1"), ("total_exchange_supply_xrp", .str "2")]

/-- `exchange_supply_depletion` section of the sample document. -/
def sampleEsd : List (String × Json) :=
  [("status", .str "CRITICAL"), ("key_metrics", .obj sampleKm)]

/-- `trigger_dashboard` section of the sample document. -/
def sampleTd : List (String × Json) :=
  [("exchange_supply_depletion", .obj sampleEsd)]

/-- `current_market_metrics` section of the sample document (exactly the four
fields of the data model). -/
def sampleCm : List (String × Json) :=
  [("price_usd", .float 3), ("price_change_24h_pct", .float (1/2)),
   ("market_cap_usd", .int 170000000000), ("volume_24h_usd", .int 4800000000)]

/-- `metadata` section of the sample document. -/
def sampleMd : List (String × Json) :=
  [("last_updated", .str "2025-10-05T10:00:00")]

/-- Top-level entries of the sample document. -/
def sampleTop : List (String × Json) :=
  [("metadata", .obj sampleMd), ("current_market_metrics", .obj sampleCm),
   ("trigger_dashboard", .obj sampleTd),
   ("simulation_models", .obj [("name", .str "monte_carlo")])]

/-- The sample document itself. -/
def sampleDoc : Json := .obj sampleTop

/-- A successful CoinGecko response body for concrete instantiations. -/
def goodBody : Json :=
  .obj [("ripple", .obj
    [("usd", .float (315/100)), ("usd_24h_change", .float (12/10)),
     ("usd_market_cap", .float 170000000000),
     ("usd_24h_vol", .float 4800000000)])]

/-- A fully successful HTTP exchange. -/
def goodHttp : HttpResult := .response 200 (some goodBody)

/-- The snapshot `fetch_xrp_price_data` builds from `goodBody`. -/
def goodPd : PriceData :=
  { price := .float (315/100), price_change_24h := .float (12/10),
    market_cap := .float 170000000000, volume_24h := .float 4800000000 }

/-- A valid-JSON document whose container sections are all present but whose
leaf fields (the four market-metric keys, `last_updated`, the two
exchange-supply strings) are all absent. -/
def noLeafDoc : Json :=
  .obj [("metadata", .obj []), ("current_market_metrics", .obj []),
        ("trigger_dashboard", .obj [("exchange_supply_depletion",
          .obj [("key_metrics", .obj [])])])]

/-- Top-level entries of a document lacking `current_market_metrics`. -/
def noCmTop : List (String × Json) :=
  [("metadata", .obj sampleMd), ("trigger_dashboard", .obj sampleTd)]

/-- Top-level entries of a document lacking `metadata`. -/
def noMdTop : List (String × Json) :=
  [("current_market_metrics", .obj sampleCm),
   ("trigger_dashboard", .obj sampleTd)]

/-- Top-level entries of a document lacking `trigger_dashboard`. -/
def noTdTop : List (String × Json) :=
  [("metadata", .obj sampleMd), ("current_market_metrics", .obj sampleCm)]

/-- Top-level entries with `trigger_dashboard` present but
`exchange_supply_depletion` missing. -/
def noEsdTop : List (String × Json) :=
  [("metadata", .obj sampleMd), ("current_market_metrics", .obj sampleCm),
   ("trigger_dashboard", .obj [])]

/-- Top-level entries with `trigger_dashboard.exchange_supply_depletion`
present but `key_metrics` missing. -/
def noKmTop : List (String × Json) :=
  [("metadata", .obj sampleMd), ("current_market_metrics", .obj sampleCm),
   ("trigger_dashboard", .obj [("exchange_supply_depletion", .obj [])])]

/-- The cycle on the document `kvs` ends with an uncaught `KeyError k`, the
on-disk document is unchanged, and no write occurred. -/
def raisesKeyError (now : String) (http : HttpResult)
    (kvs : List (String × Json)) (k : String) : Prop :=
  (update_dashboard_json now http (.valid (.obj kvs))).result =
    .error (.keyError k) ∧
  (update_dashboard_json now http (.valid (.obj kvs))).file =
    .valid (.obj kvs) ∧
  writeCount (update_dashboard_json now http (.valid (.obj kvs))).events = 0

/-- Chronological order on timestamps: lexicographic on the characters, which
for same-format ISO-8601 strings (as `datetime.now().isoformat()` emits)
coincides with time order. -/
def chronoLt (a b : String) : Prop := a.data < b.data

instance chronoLtDec (a b : String) : Decidable (chronoLt a b) :=
  inferInstanceAs (Decidable (a.data < b.data))

theorem dictGet_dictSet (l : List (String × Json)) (k k' : String) (v : Json) :
    dictGet (dictSet l k v) k' = if k = k' then some v else dictGet l k' := by
  induction l with
  | nil =>
      by_cases h : k = k' <;> simp [dictSet, dictGet, h]
  | cons p rest ih =>
      obtain ⟨k0, v0⟩ := p
      by_cases h0 : k0 = k
      · subst h0
        by_cases h : k0 = k' <;> simp [dictSet, dictGet, h]
      · by_cases h : k0 = k'
        · subst h
          simp [dictSet, dictGet, h0]
          rw [if_neg (fun hkk => h0 hkk.symm)]
        · simp [dictSet, dictGet, h0, h, ih]

theorem dictSet_dictSet_same (l : List (String × Json)) (k : String)
    (v w : Json) : dictSet (dictSet l k v) k w = dictSet l k w := by
  induction l with
  | nil => simp [dictSet]
  | cons p rest ih =>
      obtain ⟨k0, v0⟩ := p
      by_cases h0 : k0 = k
      · simp [dictSet, h0]
      · simp [dictSet, h0, ih]

theorem exchange_br :
    fetch_exchange_supply.getKey "binance_reserves" = .ok (.int 3600000000) :=
  rfl

theorem exchange_ts :
    fetch_exchange_supply.getKey "total_exchange_supply" =
      .ok (.int 8500000000) :=
  rfl

theorem pyStr_br : pyStr (.int 3600000000) = "3600000000" := rfl

theorem pyStr_ts : pyStr (.int 8500000000) = "8500000000" := rfl

theorem exchange_truthy : fetch_exchange_supply.truthy = true := rfl

theorem bindOk {α β : Type} (a : α) (f : α → Except PyExc β) :
    (Except.ok a >>= f) = f a := rfl

theorem bindErr {α β : Type} (e : PyExc) (f : α → Except PyExc β) :
    ((Except.error e : Except PyExc α) >>= f) = .error e := rfl

theorem getKey_ok {kvs : List (String × Json)} {k : String} {v : Json}
    (h : dictGet kvs k = some v) : (Json.obj kvs).getKey k = .ok v := by
  simp only [Json.getKey, h]

theorem getKey_err {kvs : List (String × Json)} {k : String}
    (h : dictGet kvs k = none) :
    (Json.obj kvs).getKey k = .error (.keyError k) := by
  simp only [Json.getKey, h]

theorem setKey_obj (kvs : List (String × Json)) (k : String) (v : Json) :
    (Json.obj kvs).setKey k v = .ok (.obj (dictSet kvs k v)) := rfl

theorem dictGet_dictSet_self (l : List (String × Json)) (k : String)
    (v : Json) : dictGet (dictSet l k v) k = some v := by
  rw [dictGet_dictSet, if_pos rfl]

theorem dictGet_dictSet_ne (l : List (String × Json)) {k k' : String}
    (v : Json) (h : k ≠ k') : dictGet (dictSet l k v) k' = dictGet l k' := by
  rw [dictGet_dictSet, if_neg h]

theorem applyExchangeUpdate_eq (kvs tdl esdl kml : List (String × Json))
    (htd : dictGet kvs "trigger_dashboard" = some (.obj tdl))
    (hesd : dictGet tdl "exchange_supply_depletion" = some (.obj esdl))
    (hkm : dictGet esdl "key_metrics" = some (.obj kml)) :
    applyExchangeUpdate (.obj kvs) =
      .ok (.obj (exchangeMergedList kvs tdl esdl kml)) := by
  unfold applyExchangeUpdate
  simp only [Json.setPath, exchange_br, exchange_ts, bindOk, pyStr_br,
    pyStr_ts, getKey_ok htd, getKey_ok hesd, getKey_ok hkm, setKey_obj,
    getKey_ok (dictGet_dictSet_self _ _ _), dictSet_dictSet_same,
    exchangeMergedList, kmMerged]

theorem applyPriceUpdate_eq (kvs cm md : List (String × Json)) (pd : PriceData)
    (now : String)
    (hcm : dictGet kvs "current_market_metrics" = some (.obj cm))
    (hmd : dictGet kvs "metadata" = some (.obj md)) :
    applyPriceUpdate (.obj kvs) pd now =
      .ok (.obj (priceMergedList kvs cm md pd now)) := by
  have hmd2 : ∀ X : Json,
      (Json.obj (dictSet kvs "current_market_metrics" X)).getKey "metadata" =
        .ok (.obj md) := by
    intro X
    refine getKey_ok ?_
    rw [dictGet_dictSet_ne _ _ (by decide)]
    exact hmd
  unfold applyPriceUpdate
  simp only [Json.setPath, bindOk, getKey_ok hcm, setKey_obj,
    getKey_ok (dictGet_dictSet_self _ _ _), dictSet_dictSet_same,
    hmd2, priceMergedList, cmMerged]

theorem update_fetchFail_eq (now : String) (http : HttpResult)
    (kvs tdl esdl kml : List (String × Json))
    (htd : dictGet kvs "trigger_dashboard" = some (.obj tdl))
    (hesd : dictGet tdl "exchange_supply_depletion" = some (.obj esdl))
    (hkm : dictGet esdl "key_metrics" = some (.obj kml))
    (hfail : fetch_xrp_price_data http = none) :
    update_dashboard_json now http (.valid (.obj kvs)) =
      { events := [.printed "updateHeader", .printed "fetchingLiveData",
                   .httpGet, .printed "errorFetchingPriceData",
                   .printed "couldNotFetchKeepingExisting",
                   .printed "updatingExchangeSupply", .printed "exchangeSupply",
                   .wrote (.obj (exchangeMergedList kvs tdl esdl kml)),
                   .printed "updatedSuccessfully"],
        file := .valid (.obj (exchangeMergedList kvs tdl esdl kml)),
        result := .ok true } := by
  simp only [update_dashboard_json, hfail, finishUpdate, exchange_truthy,
    applyExchangeUpdate_eq kvs tdl esdl kml htd hesd hkm, if_true]
  rfl

theorem update_fetchSuccess_eq (now : String) (http : HttpResult)
    (pd : PriceData) (kvs cm md tdl esdl kml : List (String × Json))
    (hcm : dictGet kvs "current_market_metrics" = some (.obj cm))
    (hmd : dictGet kvs "metadata" = some (.obj md))
    (htd : dictGet kvs "trigger_dashboard" = some (.obj tdl))
    (hesd : dictGet tdl "exchange_supply_depletion" = some (.obj esdl))
    (hkm : dictGet esdl "key_metrics" = some (.obj kml))
    (hsucc : fetch_xrp_price_data http = some pd) :
    update_dashboard_json now http (.valid (.obj kvs)) =
      { events := [.printed "updateHeader", .printed "fetchingLiveData",
                   .httpGet, .printed "priceUpdated", .printed "change24h",
                   .printed "marketCap", .printed "volume",
                   .printed "updatingExchangeSupply", .printed "exchangeSupply",
                   .wrote (.obj (exchangeMergedList
                     (priceMergedList kvs cm md pd now) tdl esdl kml)),
                   .printed "updatedSuccessfully"],
        file := .valid (.obj (exchangeMergedList
          (priceMergedList kvs cm md pd now) tdl esdl kml)),
        result := .ok true } := by
  have htd2 : dictGet (priceMergedList kvs cm md pd now) "trigger_dashboard" =
      some (.obj tdl) := by
    unfold priceMergedList
    rw [dictGet_dictSet_ne _ _ (by decide), dictGet_dictSet_ne _ _ (by decide)]
    exact htd
  simp only [update_dashboard_json, hsucc, finishUpdate, exchange_truthy,
    applyPriceUpdate_eq kvs cm md pd now hcm hmd,
    applyExchangeUpdate_eq (priceMergedList kvs cm md pd now) tdl esdl kml
      htd2 hesd hkm, if_true]
  rfl

theorem fetch_goodHttp : fetch_xrp_price_data goodHttp = some goodPd := rfl

theorem sampleDoc_WF : WF sampleDoc :=
  ⟨sampleTop, sampleCm, sampleMd, sampleTd, sampleEsd, sampleKm,
   rfl, rfl, rfl, rfl, rfl, rfl⟩

theorem writeCount_append (a b : List Event) :
    writeCount (a ++ b) = writeCount a + writeCount b := by
  simp [writeCount, List.filter_append]

theorem isWriteEvent_printed (s : String) :
    isWriteEvent (.printed s) = false := rfl

theorem isWriteEvent_sleep (n : Nat) : isWriteEvent (.sleep n) = false := rfl

theorem isWriteEvent_wrote (d : Json) : isWriteEvent (.wrote d) = true := rfl

theorem isWriteEvent_httpGet : isWriteEvent .httpGet = false := rfl

theorem isSleepEvent_printed (s : String) :
    isSleepEvent (.printed s) = false := rfl

theorem isSleepEvent_sleep (n : Nat) : isSleepEvent (.sleep n) = true := rfl

theorem isSleepEvent_wrote (d : Json) : isSleepEvent (.wrote d) = false := rfl

theorem isSleepEvent_httpGet : isSleepEvent .httpGet = false := rfl

theorem WF_exchangeMerged (kvs tdl esdl kml cm md : List (String × Json))
    (hcm : dictGet kvs "current_market_metrics" = some (.obj cm))
    (hmd : dictGet kvs "metadata" = some (.obj md)) :
    WF (.obj (exchangeMergedList kvs tdl esdl kml)) := by
  refine ⟨exchangeMergedList kvs tdl esdl kml, cm, md,
    dictSet tdl "exchange_supply_depletion"
      (.obj (dictSet esdl "key_metrics" (.obj (kmMerged kml)))),
    dictSet esdl "key_metrics" (.obj (kmMerged kml)),
    kmMerged kml, rfl, ?_, ?_, ?_, ?_, ?_⟩
  · unfold exchangeMergedList
    rw [dictGet_dictSet_ne _ _ (by decide)]
    exact hcm
  · unfold exchangeMergedList
    rw [dictGet_dictSet_ne _ _ (by decide)]
    exact hmd
  · exact dictGet_dictSet_self _ _ _
  · exact dictGet_dictSet_self _ _ _
  · exact dictGet_dictSet_self _ _ _

theorem WF_priceMerged (kvs cm md tdl esdl kml : List (String × Json))
    (pd : PriceData) (now : String)
    (htd : dictGet kvs "trigger_dashboard" = some (.obj tdl))
    (hesd : dictGet tdl "exchange_supply_depletion" = some (.obj esdl))
    (hkm : dictGet esdl "key_metrics" = some (.obj kml)) :
    WF (.obj (priceMergedList kvs cm md pd now)) := by
  refine ⟨priceMergedList kvs cm md pd now, cmMerged cm pd,
    dictSet md "last_updated" (.str now), tdl, esdl, kml, rfl,
    ?_, ?_, ?_, hesd, hkm⟩
  · unfold priceMergedList
    rw [dictGet_dictSet_ne _ _ (by decide)]
    exact dictGet_dictSet_self _ _ _
  · exact dictGet_dictSet_self _ _ _
  · unfold priceMergedList
    rw [dictGet_dictSet_ne _ _ (by decide), dictGet_dictSet_ne _ _ (by decide)]
    exact htd

theorem update_WF_run (now : String) (http : HttpResult) (d : Json)
    (hwf : WF d) :
    ∃ d2,
      (update_dashboard_json now http (.valid d)).result = .ok true ∧
      (update_dashboard_json now http (.valid d)).file = .valid d2 ∧
      WF d2 ∧
      writeCount (update_dashboard_json now http (.valid d)).events = 1 ∧
      (update_dashboard_json now http (.valid d)).events.filter isSleepEvent
        = [] := by
  obtain ⟨kvs, cm, md, tdl, esdl, kml, rfl, hcm, hmd, htd, hesd, hkm⟩ := hwf
  cases hf : fetch_xrp_price_data http with
  | none =>
      rw [update_fetchFail_eq now http kvs tdl esdl kml htd hesd hkm hf]
      exact ⟨_, rfl, rfl, WF_exchangeMerged kvs tdl esdl kml cm md hcm hmd,
        rfl, rfl⟩
  | some pd =>
      rw [update_fetchSuccess_eq now http pd kvs cm md tdl esdl kml
        hcm hmd htd hesd hkm hf]
      refine ⟨_, rfl, rfl, ?_, rfl, rfl⟩
      refine WF_exchangeMerged _ tdl esdl kml (cmMerged cm pd)
        (dictSet md "last_updated" (.str now)) ?_ ?_
      · unfold priceMergedList
        rw [dictGet_dictSet_ne _ _ (by decide)]
        exact dictGet_dictSet_self _ _ _
      · exact dictGet_dictSet_self _ _ _

theorem continuousLoop_WF_run (interval : Nat) (now : Nat → String)
    (http : Nat → HttpResult) :
    ∀ (k i : Nat) (d : Json), WF d →
      ∃ (evs : List Event) (d2 : Json),
        continuousLoop now http interval i k (.valid d) =
          (evs ++ [.printed "stoppedByUser"], .valid d2, .ok ()) ∧
        WF d2 ∧
        writeCount (evs ++ [.printed "stoppedByUser"]) = k + 1 ∧
        List.filter isSleepEvent (evs ++ [.printed "stoppedByUser"]) =
          List.replicate k (.sleep (interval * 60)) := by
  intro k
  induction k with
  | zero =>
      intro i d hwf
      obtain ⟨d2, hres, hfile, hwf2, hwc, hsl⟩ :=
        update_WF_run (now i) (http i) d hwf
      refine ⟨(update_dashboard_json (now i) (http i)
          (FileState.valid d)).events ++ [Event.printed "nextUpdateIn"], d2,
        ?_, hwf2, ?_, ?_⟩
      · simp only [continuousLoop, hres, hfile, List.append_assoc,
          List.cons_append, List.nil_append]
      · rw [List.append_assoc, writeCount_append, hwc]
        rfl
      · rw [List.append_assoc, List.filter_append, hsl]
        rfl
  | succ k ih =>
      intro i d hwf
      obtain ⟨d2, hres, hfile, hwf2, hwc, hsl⟩ :=
        update_WF_run (now i) (http i) d hwf
      obtain ⟨evs2, d3, hloop, hwf3, hwc2, hsl2⟩ := ih (i + 1) d2 hwf2
      refine ⟨(update_dashboard_json (now i) (http i)
          (FileState.valid d)).events ++
        [Event.printed "nextUpdateIn", Event.sleep (interval * 60)] ++ evs2,
        d3, ?_, hwf3, ?_, ?_⟩
      · simp only [continuousLoop, hres, hfile, hloop, List.append_assoc,
          List.cons_append, List.nil_append]
      · rw [List.append_assoc, List.append_assoc, writeCount_append, hwc,
          writeCount_append, hwc2]
        show 1 + (0 + (k + 1)) = k + 1 + 1
        omega
      · rw [List.append_assoc, List.append_assoc, List.filter_append, hsl,
          List.filter_append, hsl2]
        simp [List.replicate_succ]
        rfl

theorem applyPriceUpdate_err_cm (kvs : List (String × Json)) (pd : PriceData)
    (now : String) (h : dictGet kvs "current_market_metrics" = none) :
    applyPriceUpdate (.obj kvs) pd now =
      .error (.keyError "current_market_metrics") := by
  unfold applyPriceUpdate
  simp only [Json.setPath, getKey_err h, bindErr]

theorem applyPriceUpdate_err_md (kvs cm : List (String × Json))
    (pd : PriceData) (now : String)
    (hcm : dictGet kvs "current_market_metrics" = some (.obj cm))
    (hmd : dictGet kvs "metadata" = none) :
    applyPriceUpdate (.obj kvs) pd now = .error (.keyError "metadata") := by
  have hmd2 : ∀ X : Json,
      (Json.obj (dictSet kvs "current_market_metrics" X)).getKey "metadata" =
        .error (.keyError "metadata") := by
    intro X
    refine getKey_err ?_
    rw [dictGet_dictSet_ne _ _ (by decide)]
    exact hmd
  unfold applyPriceUpdate
  simp only [Json.setPath, bindOk, getKey_ok hcm, setKey_obj,
    getKey_ok (dictGet_dictSet_self _ _ _), dictSet_dictSet_same, hmd2,
    bindErr]

theorem applyExchangeUpdate_err_td (kvs : List (String × Json))
    (h : dictGet kvs "trigger_dashboard" = none) :
    applyExchangeUpdate (.obj kvs) =
      .error (.keyError "trigger_dashboard") := by
  unfold applyExchangeUpdate
  simp only [Json.setPath, exchange_br, bindOk, getKey_err h, bindErr]

theorem update_priceErr_eq (now : String) (http : HttpResult) (pd : PriceData)
    (kvs : List (String × Json)) (e : PyExc)
    (hsucc : fetch_xrp_price_data http = some pd)
    (herr : applyPriceUpdate (.obj kvs) pd now = .error e) :
    update_dashboard_json now http (.valid (.obj kvs)) =
      { events := [.printed "updateHeader", .printed "fetchingLiveData",
                   .httpGet],
        file := .valid (.obj kvs), result := .error e } := by
  simp only [update_dashboard_json, hsucc, herr]
  rfl

theorem update_exchangeErr_eq (now : String) (http : HttpResult)
    (kvs : List (String × Json)) (e : PyExc)
    (hfail : fetch_xrp_price_data http = none)
    (herr : applyExchangeUpdate (.obj kvs) = .error e) :
    update_dashboard_json now http (.valid (.obj kvs)) =
      { events := [.printed "updateHeader", .printed "fetchingLiveData",
                   .httpGet, .printed "errorFetchingPriceData",
                   .printed "couldNotFetchKeepingExisting",
                   .printed "updatingExchangeSupply"],
        file := .valid (.obj kvs), result := .error e } := by
  simp only [update_dashboard_json, hfail, finishUpdate, exchange_truthy,
    herr, if_true]
  rfl

theorem applyExchangeUpdate_err_esd (kvs tdl : List (String × Json))
    (htd : dictGet kvs "trigger_dashboard" = some (.obj tdl))
    (h : dictGet tdl "exchange_supply_depletion" = none) :
    applyExchangeUpdate (.obj kvs) =
      .error (.keyError "exchange_supply_depletion") := by
  unfold applyExchangeUpdate
  simp only [Json.setPath, exchange_br, bindOk, getKey_ok htd, getKey_err h,
    bindErr]

theorem applyExchangeUpdate_err_km (kvs tdl esdl : List (String × Json))
    (htd : dictGet kvs "trigger_dashboard" = some (.obj tdl))
    (hesd : dictGet tdl "exchange_supply_depletion" = some (.obj esdl))
    (h : dictGet esdl "key_metrics" = none) :
    applyExchangeUpdate (.obj kvs) = .error (.keyError "key_metrics") := by
  unfold applyExchangeUpdate
  simp only [Json.setPath, exchange_br, bindOk, getKey_ok htd,
    getKey_ok hesd, getKey_err h, bindErr]

theorem update_exchangeErr_succ_eq (now : String) (http : HttpResult)
    (pd : PriceData) (kvs cm md : List (String × Json)) (e : PyExc)
    (hsucc : fetch_xrp_price_data http = some pd)
    (hcm : dictGet kvs "current_market_metrics" = some (.obj cm))
    (hmd : dictGet kvs "metadata" = some (.obj md))
    (herr : applyExchangeUpdate (.obj (priceMergedList kvs cm md pd now)) =
      .error e) :
    update_dashboard_json now http (.valid (.obj kvs)) =
      { events := [.printed "updateHeader", .printed "fetchingLiveData",
                   .httpGet, .printed "priceUpdated", .printed "change24h",
                   .printed "marketCap", .printed "volume",
                   .printed "updatingExchangeSupply"],
        file := .valid (.obj kvs), result := .error e } := by
  simp only [update_dashboard_json, hsucc,
    applyPriceUpdate_eq kvs cm md pd now hcm hmd, finishUpdate,
    exchange_truthy, herr, if_true]
  rfl

theorem priceMerged_td (kvs cm md : List (String × Json)) (pd : PriceData)
    (now : String) :
    dictGet (priceMergedList kvs cm md pd now) "trigger_dashboard" =
      dictGet kvs "trigger_dashboard" := by
  unfold priceMergedList
  rw [dictGet_dictSet_ne _ _ (by decide), dictGet_dictSet_ne _ _ (by decide)]

theorem exchangeMerged_leaves (kvs tdl esdl kml : List (String × Json)) :
    (Json.obj (exchangeMergedList kvs tdl esdl kml)).getPath
        ["trigger_dashboard", "exchange_supply_depletion", "key_metrics",
         "binance_reserves_xrp"] = .ok (.str "3600000000") ∧
    (Json.obj (exchangeMergedList kvs tdl esdl kml)).getPath
        ["trigger_dashboard", "exchange_supply_depletion", "key_metrics",
         "total_exchange_supply_xrp"] = .ok (.str "8500000000") := by
  have hleaf1 : dictGet (kmMerged kml) "binance_reserves_xrp" =
      some (.str "3600000000") := by
    unfold kmMerged
    rw [dictGet_dictSet_ne _ _ (by decide)]
    exact dictGet_dictSet_self _ _ _
  have hleaf2 : dictGet (kmMerged kml) "total_exchange_supply_xrp" =
      some (.str "8500000000") := dictGet_dictSet_self _ _ _
  unfold exchangeMergedList
  constructor <;>
    simp only [Json.getPath, getKey_ok (dictGet_dictSet_self _ _ _), bindOk,
      getKey_ok hleaf1, getKey_ok hleaf2]

theorem exchangeMerged_metadata_path (kvs tdl esdl kml md :
    List (String × Json)) (v : Json)
    (hmd : dictGet kvs "metadata" = some (.obj md))
    (hlast : dictGet md "last_updated" = some v) :
    (Json.obj (exchangeMergedList kvs tdl esdl kml)).getPath
      ["metadata", "last_updated"] = .ok v := by
  have hmd2 : dictGet (exchangeMergedList kvs tdl esdl kml) "metadata" =
      some (.obj md) := by
    unfold exchangeMergedList
    rw [dictGet_dictSet_ne _ _ (by decide)]
    exact hmd
  simp only [Json.getPath, getKey_ok hmd2, bindOk, getKey_ok hlast]

theorem priceMerged_metadata (kvs cm md : List (String × Json))
    (pd : PriceData) (now : String) :
    dictGet (priceMergedList kvs cm md pd now) "metadata" =
      some (.obj (dictSet md "last_updated" (.str now))) := by
  unfold priceMergedList
  exact dictGet_dictSet_self _ _ _

theorem priceMerged_cm (kvs cm md : List (String × Json)) (pd : PriceData)
    (now : String) :
    dictGet (priceMergedList kvs cm md pd now) "current_market_metrics" =
      some (.obj (cmMerged cm pd)) := by
  unfold priceMergedList
  rw [dictGet_dictSet_ne _ _ (by decide)]
  exact dictGet_dictSet_self _ _ _

theorem exchangeMerged_other_keys (kvs tdl esdl kml : List (String × Json))
    {k : String} (h : k ≠ "trigger_dashboard") :
    dictGet (exchangeMergedList kvs tdl esdl kml) k = dictGet kvs k := by
  unfold exchangeMergedList
  exact dictGet_dictSet_ne _ _ (fun h2 => h h2.symm)

/-- C3: the claim says a document that is missing or not valid JSON makes the
update return a failure value without raising. For the invalid-JSON case this
is false: only `FileNotFoundError` is caught, so `json.load`'s
`JSONDecodeError` escapes `update_dashboard_json` instead of being returned
as `False`. -/
theorem C3_counterexample :
    (update_dashboard_json "2025-10-05T10:15:00" .netError .invalid).result =
      .error .jsonDecodeError ∧
    (update_dashboard_json "2025-10-05T10:15:00" .netError .invalid).result ≠
      .ok false := by
  refine ⟨rfl, ?_⟩
  simp [update_dashboard_json]

/-- C3 amended: a missing file makes the operation return `False`, while a
file whose content is not valid JSON makes it raise `JSONDecodeError` to the
caller; in both cases no file is written and the filesystem is left
unmodified. -/
theorem C3_amended_load_failures (now : String) (http : HttpResult) :
    ((update_dashboard_json now http .missing).result = .ok false ∧
     (update_dashboard_json now http .missing).file = .missing ∧
     writeCount (update_dashboard_json now http .missing).events = 0) ∧
    ((update_dashboard_json now http .invalid).result =
        .error .jsonDecodeError ∧
     (update_dashboard_json now http .invalid).file = .invalid ∧
     writeCount (update_dashboard_json now http .invalid).events = 0) :=
  ⟨⟨rfl, rfl, rfl⟩, ⟨rfl, rfl, rfl⟩⟩

/-- C4: every failure of the primary fetch — network error or timeout
(`netError`), a 4xx/5xx status raised by `raise_for_status`, a body that is
not JSON, or a body missing the expected key — makes `fetch_xrp_price_data`
return `None` instead of letting the exception escape, and a cycle run
against any failing fetch is identical to a cycle run against any other
failing fetch. -/
theorem C4_fetch_failures_swallowed :
    (∀ (r : HttpResult) (e : PyExc), fetchTry r = .error e →
      fetch_xrp_price_data r = none) ∧
    fetch_xrp_price_data .netError = none ∧
    (∀ (s : Nat) (b : Option Json), 400 ≤ s → s < 600 →
      fetch_xrp_price_data (.response s b) = none) ∧
    (∀ s : Nat, ¬(400 ≤ s ∧ s < 600) →
      fetch_xrp_price_data (.response s none) = none) ∧
    (∀ (s : Nat) (j : Json) (e : PyExc), ¬(400 ≤ s ∧ s < 600) →
      j.getKey "ripple" = .error e →
      fetch_xrp_price_data (.response s (some j)) = none) ∧
    (∀ (now : String) (file : FileState) (r1 r2 : HttpResult),
      fetch_xrp_price_data r1 = none → fetch_xrp_price_data r2 = none →
      update_dashboard_json now r1 file = update_dashboard_json now r2 file) := by
  refine ⟨?_, rfl, ?_, ?_, ?_, ?_⟩
  · intro r e h
    unfold fetch_xrp_price_data
    rw [h]
  · intro s b h1 h2
    have hft : fetchTry (.response s b) = .error (.httpError s) := by
      simp only [fetchTry]
      rw [if_pos (⟨h1, h2⟩ : 400 ≤ s ∧ s < 600)]
      rfl
    unfold fetch_xrp_price_data
    rw [hft]
  · intro s h
    have hft : fetchTry (.response s none) = .error .jsonDecodeError := by
      simp only [fetchTry]
      rw [if_neg h]
      rfl
    unfold fetch_xrp_price_data
    rw [hft]
  · intro s j e h hkey
    have hft : fetchTry (.response s (some j)) = .error e := by
      simp only [fetchTry]
      rw [if_neg h]
      simp only [bindOk, hkey, bindErr]
    unfold fetch_xrp_price_data
    rw [hft]
  · intro now file r1 r2 h1 h2
    cases file with
    | missing => rfl
    | invalid => rfl
    | valid d => simp only [update_dashboard_json, h1, h2]

/-- C4 witness: a 404 response is swallowed to `None` and its cycle matches a
network-error cycle. -/
theorem C4_fetch_failures_swallowed_witness :
    fetch_xrp_price_data (.response 404 none) = none ∧
    update_dashboard_json "2025-10-05T10:15:00" (.response 404 none)
        (.valid sampleDoc) =
      update_dashboard_json "2025-10-05T10:15:00" .netError
        (.valid sampleDoc) := by
  refine ⟨?_, ?_⟩
  · exact C4_fetch_failures_swallowed.2.2.1 404 none (by decide) (by decide)
  · exact C4_fetch_failures_swallowed.2.2.2.2.2 "2025-10-05T10:15:00"
      (.valid sampleDoc) (.response 404 none) .netError rfl rfl

/-- C9: with the store file missing, the cycle prints the header and the
not-found line, returns `False`, and never reaches the fetch — no outbound
HTTP request is attempted, because the load precedes the fetch. -/
theorem C9_load_precedes_fetch (now : String) (http : HttpResult) :
    (update_dashboard_json now http .missing).events =
      [.printed "updateHeader", .printed "errorFileNotFound"] ∧
    Event.httpGet ∉ (update_dashboard_json now http .missing).events ∧
    (update_dashboard_json now http .missing).result = .ok false ∧
    (update_dashboard_json now http .missing).file = .missing := by
  refine ⟨rfl, ?_, rfl, rfl⟩
  show Event.httpGet ∉ [Event.printed "updateHeader",
    Event.printed "errorFileNotFound"]
  simp

/-- C10: with a first argument that is neither `--continuous` nor `--help`,
the `if`/`elif` chain of the `__main__` block falls through: no mode runs,
nothing is printed, no update occurs. -/
theorem C10_unknown_arg_noop (prog a : String) (rest : List String)
    (now : Nat → String) (http : Nat → HttpResult) (k : Nat)
    (file : FileState) (h1 : a ≠ "--continuous") (h2 : a ≠ "--help") :
    mainMode (prog :: a :: rest) = .ok .nothing ∧
    modeEvents now http k file .nothing = [] := by
  constructor
  · simp [mainMode, h1, h2]
  · rfl

/-- C10 witness at a concrete unknown directive. -/
theorem C10_unknown_arg_noop_witness :
    mainMode ["xrp_dashboard_updater.py", "--frobnicate"] = .ok .nothing ∧
    modeEvents (fun _ => "2025-10-05T10:15:00") (fun _ => .netError) 0
      .missing .nothing = [] :=
  C10_unknown_arg_noop "xrp_dashboard_updater.py" "--frobnicate" []
    (fun _ => "2025-10-05T10:15:00") (fun _ => .netError) 0 .missing
    (by decide) (by decide)

/-- C2: on every cycle that loads a well-formed document — fetch success or
failure alike — the two string fields under
`trigger_dashboard.exchange_supply_depletion.key_metrics` end up overwritten
with the stringified constants returned by the I/O-free, never-failing
`fetch_exchange_supply`, and the cycle returns `True`. -/
theorem C2_exchange_overwrite (now : String) (http : HttpResult) (d : Json)
    (hwf : WF d) :
    fetch_exchange_supply.getKey "binance_reserves" = .ok (.int 3600000000) ∧
    fetch_exchange_supply.getKey "total_exchange_supply" =
      .ok (.int 8500000000) ∧
    fetch_exchange_supply.truthy = true ∧
    (update_dashboard_json now http (.valid d)).result = .ok true ∧
    ∃ R : Json,
      (update_dashboard_json now http (.valid d)).file = .valid R ∧
      R.getPath ["trigger_dashboard", "exchange_supply_depletion",
        "key_metrics", "binance_reserves_xrp"] = .ok (.str "3600000000") ∧
      R.getPath ["trigger_dashboard", "exchange_supply_depletion",
        "key_metrics", "total_exchange_supply_xrp"] =
        .ok (.str "8500000000") := by
  obtain ⟨kvs, cm, md, tdl, esdl, kml, rfl, hcm, hmd, htd, hesd, hkm⟩ := hwf
  cases hf : fetch_xrp_price_data http with
  | none =>
      rw [update_fetchFail_eq now http kvs tdl esdl kml htd hesd hkm hf]
      exact ⟨rfl, rfl, rfl, rfl, _, rfl, (exchangeMerged_leaves _ _ _ _).1,
        (exchangeMerged_leaves _ _ _ _).2⟩
  | some pd =>
      rw [update_fetchSuccess_eq now http pd kvs cm md tdl esdl kml
        hcm hmd htd hesd hkm hf]
      exact ⟨rfl, rfl, rfl, rfl, _, rfl, (exchangeMerged_leaves _ _ _ _).1,
        (exchangeMerged_leaves _ _ _ _).2⟩

/-- C2 witness: the overwrite on the sample document under a failed fetch. -/
theorem C2_exchange_overwrite_witness :
    (update_dashboard_json "2025-10-05T10:15:00" .netError
      (.valid sampleDoc)).result = .ok true := by
  obtain ⟨-, -, -, hres, -⟩ := C2_exchange_overwrite "2025-10-05T10:15:00"
    .netError sampleDoc sampleDoc_WF
  exact hres

/-- C5: a successful fetch leaves `current_market_metrics` exactly the
four-field record of the snapshot, in order, and stamps
`metadata.last_updated` with the cycle's timestamp, which (the clock having
advanced past the prior persisted value) is chronologically greater than the
pre-update value. -/
theorem C5_success_merge (now t0 : String) (http : HttpResult)
    (pd : PriceData) (kvs md tdl esdl kml : List (String × Json))
    (a b c v : Json)
    (hcm : dictGet kvs "current_market_metrics" =
      some (.obj [("price_usd", a), ("price_change_24h_pct", b),
                  ("market_cap_usd", c), ("volume_24h_usd", v)]))
    (hmd : dictGet kvs "metadata" = some (.obj md))
    (htd : dictGet kvs "trigger_dashboard" = some (.obj tdl))
    (hesd : dictGet tdl "exchange_supply_depletion" = some (.obj esdl))
    (hkm : dictGet esdl "key_metrics" = some (.obj kml))
    (hsucc : fetch_xrp_price_data http = some pd)
    (hlast : dictGet md "last_updated" = some (.str t0))
    (hclock : chronoLt t0 now) :
    ∃ R : List (String × Json),
      (update_dashboard_json now http (.valid (.obj kvs))).file =
        .valid (.obj R) ∧
      dictGet R "current_market_metrics" =
        some (.obj [("price_usd", pd.price),
                    ("price_change_24h_pct", pd.price_change_24h),
                    ("market_cap_usd", pd.market_cap),
                    ("volume_24h_usd", pd.volume_24h)]) ∧
      (Json.obj R).getPath ["metadata", "last_updated"] = .ok (.str now) ∧
      chronoLt t0 now := by
  rw [update_fetchSuccess_eq now http pd kvs _ md tdl esdl kml
    hcm hmd htd hesd hkm hsucc]
  refine ⟨_, rfl, ?_, ?_, hclock⟩
  · rw [exchangeMerged_other_keys _ _ _ _ (by decide), priceMerged_cm]
    rfl
  · exact exchangeMerged_metadata_path _ tdl esdl kml _ _
      (priceMerged_metadata kvs _ md pd now) (dictGet_dictSet_self _ _ _)

/-- C5 witness: the sample document, a successful fetch, and a clock reading
after the prior `last_updated`. -/
theorem C5_success_merge_witness :
    ∃ R : List (String × Json),
      (update_dashboard_json "2025-10-05T10:15:00" goodHttp
        (.valid sampleDoc)).file = .valid (.obj R) ∧
      dictGet R "current_market_metrics" =
        some (.obj [("price_usd", goodPd.price),
                    ("price_change_24h_pct", goodPd.price_change_24h),
                    ("market_cap_usd", goodPd.market_cap),
                    ("volume_24h_usd", goodPd.volume_24h)]) ∧
      (Json.obj R).getPath ["metadata", "last_updated"] =
        .ok (.str "2025-10-05T10:15:00") := by
  obtain ⟨R, hfile, hcm, hpath, -⟩ :=
    C5_success_merge "2025-10-05T10:15:00" "2025-10-05T10:00:00" goodHttp
      goodPd sampleTop sampleMd sampleTd sampleEsd sampleKm
      (.float 3) (.float (1/2)) (.int 170000000000) (.int 4800000000)
      rfl rfl rfl rfl rfl rfl rfl (by decide)
  exact ⟨R, hfile, hcm, hpath⟩

/-- C6 counterexample: on a failed-fetch cycle the persisted document still
carries the prior `last_updated` value — the timestamp is not rewritten on
every cycle that loads the document, only on successful fetches. -/
theorem C6_counterexample :
    strAt (update_dashboard_json "2025-10-05T10:15:00" .netError
        (.valid sampleDoc)).file ["metadata", "last_updated"] =
      some "2025-10-05T10:00:00" ∧
    "2025-10-05T10:00:00" ≠ "2025-10-05T10:15:00" :=
  ⟨rfl, by decide⟩

/-- C6 amended: `metadata.last_updated` is rewritten to the cycle's current
timestamp exactly on the cycles whose price fetch succeeded; a failed-fetch
cycle persists the prior value unchanged. (Within this repository only
`update_dashboard_json` writes the field; the viewer page only reads it.) -/
theorem C6_amended_timestamp (kvs cm md tdl esdl kml : List (String × Json))
    (t0v : Json)
    (hcm : dictGet kvs "current_market_metrics" = some (.obj cm))
    (hmd : dictGet kvs "metadata" = some (.obj md))
    (htd : dictGet kvs "trigger_dashboard" = some (.obj tdl))
    (hesd : dictGet tdl "exchange_supply_depletion" = some (.obj esdl))
    (hkm : dictGet esdl "key_metrics" = some (.obj kml))
    (hlast : dictGet md "last_updated" = some t0v) :
    (∀ (now : String) (http : HttpResult) (pd : PriceData),
      fetch_xrp_price_data http = some pd →
      ∃ R : Json,
        (update_dashboard_json now http (.valid (.obj kvs))).file =
          .valid R ∧
        R.getPath ["metadata", "last_updated"] = .ok (.str now)) ∧
    (∀ (now : String) (http : HttpResult),
      fetch_xrp_price_data http = none →
      ∃ R : Json,
        (update_dashboard_json now http (.valid (.obj kvs))).file =
          .valid R ∧
        R.getPath ["metadata", "last_updated"] = .ok t0v) := by
  constructor
  · intro now http pd hsucc
    rw [update_fetchSuccess_eq now http pd kvs cm md tdl esdl kml
      hcm hmd htd hesd hkm hsucc]
    refine ⟨_, rfl, ?_⟩
    exact exchangeMerged_metadata_path _ tdl esdl kml _ _
      (priceMerged_metadata kvs cm md pd now) (dictGet_dictSet_self _ _ _)
  · intro now http hfail
    rw [update_fetchFail_eq now http kvs tdl esdl kml htd hesd hkm hfail]
    refine ⟨_, rfl, ?_⟩
    exact exchangeMerged_metadata_path kvs tdl esdl kml md t0v hmd hlast

/-- C6 amended witness: failed fetch on the sample document keeps the prior
timestamp. -/
theorem C6_amended_timestamp_witness :
    ∃ R : Json,
      (update_dashboard_json "2025-10-05T10:15:00" .netError
        (.valid sampleDoc)).file = .valid R ∧
      R.getPath ["metadata", "last_updated"] =
        .ok (.str "2025-10-05T10:00:00") :=
  (C6_amended_timestamp sampleTop sampleCm sampleMd sampleTd sampleEsd
    sampleKm (.str "2025-10-05T10:00:00") rfl rfl rfl rfl rfl rfl).2
    "2025-10-05T10:15:00" .netError rfl

/-- C1 counterexample: a failed-fetch cycle does not persist a document
deep-equal to the prior one: the two exchange-supply strings are
unconditionally overwritten with the stub constants, so a document carrying
any other values there is changed. -/
theorem C1_counterexample :
    (update_dashboard_json "2025-10-05T10:15:00" .netError
      (.valid sampleDoc)).file ≠ .valid sampleDoc := by
  intro h
  have h2 : (some "3600000000" : Option String) = some "1" := by
    calc (some "3600000000" : Option String)
        = strAt (update_dashboard_json "2025-10-05T10:15:00" .netError
            (.valid sampleDoc)).file ["trigger_dashboard",
            "exchange_supply_depletion", "key_metrics",
            "binance_reserves_xrp"] := rfl
      _ = strAt (.valid sampleDoc) ["trigger_dashboard",
            "exchange_supply_depletion", "key_metrics",
            "binance_reserves_xrp"] := by rw [h]
      _ = some "1" := rfl
  simp at h2

/-- C1 amended: a failed-fetch cycle persists a document identical to the
prior one except exactly at the two exchange-supply strings under
`trigger_dashboard.exchange_supply_depletion.key_metrics`, which are set to
the stub constants: `current_market_metrics` and `metadata` (hence
`last_updated`) keep their prior persisted values, every other top-level
section and every other entry along the trigger path is preserved verbatim,
and the cycle returns `True`. The round trip is deep-equal only when the
prior strings already equalled the stubs. -/
theorem C1_amended_failed_fetch (now : String) (http : HttpResult)
    (kvs cm md tdl esdl kml : List (String × Json))
    (hcm : dictGet kvs "current_market_metrics" = some (.obj cm))
    (hmd : dictGet kvs "metadata" = some (.obj md))
    (htd : dictGet kvs "trigger_dashboard" = some (.obj tdl))
    (hesd : dictGet tdl "exchange_supply_depletion" = some (.obj esdl))
    (hkm : dictGet esdl "key_metrics" = some (.obj kml))
    (hfail : fetch_xrp_price_data http = none) :
    ∃ R : List (String × Json),
      (update_dashboard_json now http (.valid (.obj kvs))).file =
        .valid (.obj R) ∧
      (update_dashboard_json now http (.valid (.obj kvs))).result =
        .ok true ∧
      (∀ k, k ≠ "trigger_dashboard" → dictGet R k = dictGet kvs k) ∧
      dictGet R "current_market_metrics" = some (.obj cm) ∧
      dictGet R "metadata" = some (.obj md) ∧
      ∃ tdl2 : List (String × Json),
        dictGet R "trigger_dashboard" = some (.obj tdl2) ∧
        (∀ k, k ≠ "exchange_supply_depletion" →
          dictGet tdl2 k = dictGet tdl k) ∧
        ∃ esdl2 : List (String × Json),
          dictGet tdl2 "exchange_supply_depletion" = some (.obj esdl2) ∧
          (∀ k, k ≠ "key_metrics" → dictGet esdl2 k = dictGet esdl k) ∧
          ∃ kml2 : List (String × Json),
            dictGet esdl2 "key_metrics" = some (.obj kml2) ∧
            (∀ k, k ≠ "binance_reserves_xrp" →
              k ≠ "total_exchange_supply_xrp" →
              dictGet kml2 k = dictGet kml k) ∧
            dictGet kml2 "binance_reserves_xrp" =
              some (.str "3600000000") ∧
            dictGet kml2 "total_exchange_supply_xrp" =
              some (.str "8500000000") := by
  rw [update_fetchFail_eq now http kvs tdl esdl kml htd hesd hkm hfail]
  refine ⟨exchangeMergedList kvs tdl esdl kml, rfl, rfl,
    (fun k hk => exchangeMerged_other_keys kvs tdl esdl kml hk),
    ?_, ?_,
    dictSet tdl "exchange_supply_depletion"
      (.obj (dictSet esdl "key_metrics" (.obj (kmMerged kml)))),
    ?_, ?_,
    dictSet esdl "key_metrics" (.obj (kmMerged kml)), ?_, ?_,
    kmMerged kml, ?_, ?_, ?_, ?_⟩
  · rw [exchangeMerged_other_keys kvs tdl esdl kml (by decide)]
    exact hcm
  · rw [exchangeMerged_other_keys kvs tdl esdl kml (by decide)]
    exact hmd
  · unfold exchangeMergedList
    exact dictGet_dictSet_self _ _ _
  · intro k hk
    exact dictGet_dictSet_ne _ _ (fun h2 => hk h2.symm)
  · exact dictGet_dictSet_self _ _ _
  · intro k hk
    exact dictGet_dictSet_ne _ _ (fun h2 => hk h2.symm)
  · exact dictGet_dictSet_self _ _ _
  · intro k hk1 hk2
    unfold kmMerged
    rw [dictGet_dictSet_ne _ _ (fun h2 => hk2 h2.symm),
      dictGet_dictSet_ne _ _ (fun h2 => hk1 h2.symm)]
  · unfold kmMerged
    rw [dictGet_dictSet_ne _ _ (by decide)]
    exact dictGet_dictSet_self _ _ _
  · exact dictGet_dictSet_self _ _ _

/-- C1 amended witness: on the sample document the failed-fetch cycle keeps
`simulation_models` and `current_market_metrics` verbatim. -/
theorem C1_amended_failed_fetch_witness :
    ∃ R : List (String × Json),
      (update_dashboard_json "2025-10-05T10:15:00" .netError
        (.valid sampleDoc)).file = .valid (.obj R) ∧
      dictGet R "simulation_models" = dictGet sampleTop "simulation_models" ∧
      dictGet R "current_market_metrics" = some (.obj sampleCm) := by
  obtain ⟨R, hfile, -, hpres, hcm, -⟩ :=
    C1_amended_failed_fetch "2025-10-05T10:15:00" .netError sampleTop
      sampleCm sampleMd sampleTd sampleEsd sampleKm rfl rfl rfl rfl rfl rfl
  exact ⟨R, hfile, hpres "simulation_models" (by decide), hcm⟩

/-- C7: with a well-formed store, continuous mode performs one cycle (one
write) per iteration, sleeps `interval*60` seconds between iterations, and
ends only at the external interrupt, exiting cleanly (no error) with the
farewell line; interrupted during the sleep after `k+1` completed iterations
it has performed exactly `k+1` writes (two writes for two iterations); the
continuous directive without a count defaults to an interval of 15
minutes. -/
theorem C7_continuous_mode (interval k : Nat) (now : Nat → String)
    (http : Nat → HttpResult) (d : Json) (hwf : WF d) :
    ∃ (evs : List Event) (d2 : Json),
      continuous_update interval now http k (.valid d) =
        (evs ++ [.printed "stoppedByUser"], .valid d2, .ok ()) ∧
      writeCount (evs ++ [.printed "stoppedByUser"]) = k + 1 ∧
      List.filter isSleepEvent (evs ++ [.printed "stoppedByUser"]) =
        List.replicate k (.sleep (interval * 60)) ∧
      mainMode ["xrp_dashboard_updater.py", "--continuous"] =
        .ok (.continuousMode 15) := by
  obtain ⟨evs, d2, hloop, hwf2, hwc, hsl⟩ :=
    continuousLoop_WF_run interval now http k 0 d hwf
  refine ⟨[Event.printed "startingContinuousMode",
    Event.printed "pressCtrlCToStop"] ++ evs, d2, ?_, ?_, ?_, rfl⟩
  · unfold continuous_update
    rw [hloop]
    simp [List.append_assoc]
  · rw [List.append_assoc, writeCount_append, hwc]
    show 0 + (k + 1) = k + 1
    omega
  · rw [List.append_assoc, List.filter_append, hsl]
    rfl

/-- C7 witness: interval 1, interrupted after 2 completed iterations, on the
sample document: exactly 2 writes, clean exit. -/
theorem C7_continuous_mode_witness :
    ∃ (evs : List Event) (d2 : Json),
      continuous_update 1 (fun _ => "2025-10-05T10:15:00")
        (fun _ => .netError) 1 (.valid sampleDoc) =
        (evs ++ [.printed "stoppedByUser"], .valid d2, .ok ()) ∧
      writeCount (evs ++ [.printed "stoppedByUser"]) = 2 := by
  obtain ⟨evs, d2, hrun, hwc, -, -⟩ :=
    C7_continuous_mode 1 1 (fun _ => "2025-10-05T10:15:00")
      (fun _ => .netError) sampleDoc sampleDoc_WF
  exact ⟨evs, d2, hrun, hwc⟩

/-- C8 counterexample: a valid document whose container sections exist but
which lacks every leaf key the merge assigns (the four market fields with the
fetch succeeding, `last_updated`, the two exchange strings) does not raise:
Python item assignment creates missing leaf keys, the cycle returns `True`
and writes the file. -/
theorem C8_counterexample :
    (update_dashboard_json "2025-10-05T10:15:00" goodHttp
      (.valid noLeafDoc)).result = .ok true ∧
    writeCount (update_dashboard_json "2025-10-05T10:15:00" goodHttp
      (.valid noLeafDoc)).events = 1 := ⟨rfl, rfl⟩

/-- C8 amended: only the container keys raise, and the first missing
container along the subscript chain names the `KeyError`. Whatever the fetch
outcome, a missing `trigger_dashboard`, `exchange_supply_depletion` (its
parent present) or `key_metrics` (its parents present) raises that uncaught
`KeyError`; when the fetch succeeded, a missing `current_market_metrics`, or
a missing `metadata` with the market container present, raises first (on a
failed fetch those two are never touched). In every raising case the write,
coming only after all mutations, has not happened and the file on disk is
unchanged. With all containers present the update never raises — missing
leaf fields are created silently. -/
theorem C8_amended_missing_containers (now : String) (http : HttpResult)
    (pd : PriceData) (kvs : List (String × Json)) :
    (fetch_xrp_price_data http = some pd →
      (dictGet kvs "current_market_metrics" = none →
        raisesKeyError now http kvs "current_market_metrics") ∧
      (∀ cm : List (String × Json),
        dictGet kvs "current_market_metrics" = some (.obj cm) →
        dictGet kvs "metadata" = none →
        raisesKeyError now http kvs "metadata") ∧
      (∀ cm md : List (String × Json),
        dictGet kvs "current_market_metrics" = some (.obj cm) →
        dictGet kvs "metadata" = some (.obj md) →
        dictGet kvs "trigger_dashboard" = none →
        raisesKeyError now http kvs "trigger_dashboard") ∧
      (∀ cm md tdl : List (String × Json),
        dictGet kvs "current_market_metrics" = some (.obj cm) →
        dictGet kvs "metadata" = some (.obj md) →
        dictGet kvs "trigger_dashboard" = some (.obj tdl) →
        dictGet tdl "exchange_supply_depletion" = none →
        raisesKeyError now http kvs "exchange_supply_depletion") ∧
      (∀ cm md tdl esdl : List (String × Json),
        dictGet kvs "current_market_metrics" = some (.obj cm) →
        dictGet kvs "metadata" = some (.obj md) →
        dictGet kvs "trigger_dashboard" = some (.obj tdl) →
        dictGet tdl "exchange_supply_depletion" = some (.obj esdl) →
        dictGet esdl "key_metrics" = none →
        raisesKeyError now http kvs "key_metrics")) ∧
    (fetch_xrp_price_data http = none →
      (dictGet kvs "trigger_dashboard" = none →
        raisesKeyError now http kvs "trigger_dashboard") ∧
      (∀ tdl : List (String × Json),
        dictGet kvs "trigger_dashboard" = some (.obj tdl) →
        dictGet tdl "exchange_supply_depletion" = none →
        raisesKeyError now http kvs "exchange_supply_depletion") ∧
      (∀ tdl esdl : List (String × Json),
        dictGet kvs "trigger_dashboard" = some (.obj tdl) →
        dictGet tdl "exchange_supply_depletion" = some (.obj esdl) →
        dictGet esdl "key_metrics" = none →
        raisesKeyError now http kvs "key_metrics")) ∧
    (WF (.obj kvs) →
     (update_dashboard_json now http (.valid (.obj kvs))).result =
       .ok true) := by
  refine ⟨fun hsucc => ⟨?_, ?_, ?_, ?_, ?_⟩, fun hfail => ⟨?_, ?_, ?_⟩, ?_⟩
  · intro hnone
    unfold raisesKeyError
    rw [update_priceErr_eq now http pd kvs _ hsucc
      (applyPriceUpdate_err_cm kvs pd now hnone)]
    exact ⟨rfl, rfl, rfl⟩
  · intro cm hcm hnone
    unfold raisesKeyError
    rw [update_priceErr_eq now http pd kvs _ hsucc
      (applyPriceUpdate_err_md kvs cm pd now hcm hnone)]
    exact ⟨rfl, rfl, rfl⟩
  · intro cm md hcm hmd hnone
    unfold raisesKeyError
    rw [update_exchangeErr_succ_eq now http pd kvs cm md _ hsucc hcm hmd
      (applyExchangeUpdate_err_td _
        (by rw [priceMerged_td]; exact hnone))]
    exact ⟨rfl, rfl, rfl⟩
  · intro cm md tdl hcm hmd htd hnone
    unfold raisesKeyError
    rw [update_exchangeErr_succ_eq now http pd kvs cm md _ hsucc hcm hmd
      (applyExchangeUpdate_err_esd _ tdl
        (by rw [priceMerged_td]; exact htd) hnone)]
    exact ⟨rfl, rfl, rfl⟩
  · intro cm md tdl esdl hcm hmd htd hesd hnone
    unfold raisesKeyError
    rw [update_exchangeErr_succ_eq now http pd kvs cm md _ hsucc hcm hmd
      (applyExchangeUpdate_err_km _ tdl esdl
        (by rw [priceMerged_td]; exact htd) hesd hnone)]
    exact ⟨rfl, rfl, rfl⟩
  · intro hnone
    unfold raisesKeyError
    rw [update_exchangeErr_eq now http kvs _ hfail
      (applyExchangeUpdate_err_td kvs hnone)]
    exact ⟨rfl, rfl, rfl⟩
  · intro tdl htd hnone
    unfold raisesKeyError
    rw [update_exchangeErr_eq now http kvs _ hfail
      (applyExchangeUpdate_err_esd kvs tdl htd hnone)]
    exact ⟨rfl, rfl, rfl⟩
  · intro tdl esdl htd hesd hnone
    unfold raisesKeyError
    rw [update_exchangeErr_eq now http kvs _ hfail
      (applyExchangeUpdate_err_km kvs tdl esdl htd hesd hnone)]
    exact ⟨rfl, rfl, rfl⟩
  · intro hwf
    obtain ⟨d2, hres, -⟩ := update_WF_run now http (.obj kvs) hwf
    exact hres

/-- C8 amended witness: one concrete document per missing container, each
under both a successful and (for the trigger path) a failed fetch. -/
theorem C8_amended_missing_containers_witness :
    raisesKeyError "2025-10-05T10:15:00" goodHttp noCmTop
      "current_market_metrics" ∧
    raisesKeyError "2025-10-05T10:15:00" goodHttp noMdTop "metadata" ∧
    raisesKeyError "2025-10-05T10:15:00" goodHttp noTdTop
      "trigger_dashboard" ∧
    raisesKeyError "2025-10-05T10:15:00" goodHttp noEsdTop
      "exchange_supply_depletion" ∧
    raisesKeyError "2025-10-05T10:15:00" goodHttp noKmTop "key_metrics" ∧
    raisesKeyError "2025-10-05T10:15:00" .netError noTdTop
      "trigger_dashboard" ∧
    raisesKeyError "2025-10-05T10:15:00" .netError noEsdTop
      "exchange_supply_depletion" ∧
    raisesKeyError "2025-10-05T10:15:00" .netError noKmTop "key_metrics" := by
  refine ⟨?_, ?_, ?_, ?_, ?_, ?_, ?_, ?_⟩
  · exact ((C8_amended_missing_containers "2025-10-05T10:15:00" goodHttp
      goodPd noCmTop).1 rfl).1 rfl
  · exact ((C8_amended_missing_containers "2025-10-05T10:15:00" goodHttp
      goodPd noMdTop).1 rfl).2.1 sampleCm rfl rfl
  · exact ((C8_amended_missing_containers "2025-10-05T10:15:00" goodHttp
      goodPd noTdTop).1 rfl).2.2.1 sampleCm sampleMd rfl rfl rfl
  · exact ((C8_amended_missing_containers "2025-10-05T10:15:00" goodHttp
      goodPd noEsdTop).1 rfl).2.2.2.1 sampleCm sampleMd [] rfl rfl rfl rfl
  · exact ((C8_amended_missing_containers "2025-10-05T10:15:00" goodHttp
      goodPd noKmTop).1 rfl).2.2.2.2 sampleCm sampleMd
      [("exchange_supply_depletion", .obj [])] [] rfl rfl rfl rfl rfl
  · exact ((C8_amended_missing_containers "2025-10-05T10:15:00" .netError
      goodPd noTdTop).2.1 rfl).1 rfl
  · exact ((C8_amended_missing_containers "2025-10-05T10:15:00" .netError
      goodPd noEsdTop).2.1 rfl).2.1 [] rfl rfl
  · exact ((C8_amended_missing_containers "2025-10-05T10:15:00" .netError
      goodPd noKmTop).2.1 rfl).2.2
      [("exchange_supply_depletion", .obj [])] [] rfl rfl rfl

end XrpDashboard
